import Mathlib

/-!
Verification development for the `astrbot_plugin_trello` repository.

The Python sources (`src/client.py`, `src/main.py`) are shallowly embedded
here: pure helpers become Lean functions; the asynchronous Trello HTTP
client is modelled as a `Gateway` record of `Except`-valued operations
(an `Except.error` models a raised `TrelloAuthError`/`TrelloApiError`);
commands and LLM tools become explicit state-passing functions over a
`Session` record, additionally returning the trace of Gateway calls they
issued, so that "no Gateway call happens" and "no session field is
written" are provable statements.
-/

namespace Trello

/-- Characters removed by Python `str.strip()` (ASCII whitespace range used
by the sources: space, tab, LF, VT, FF, CR). -/
def isPyWhitespace (c : Char) : Bool :=
  c.toNat = 32 || c.toNat = 9 || c.toNat = 10 || c.toNat = 11 || c.toNat = 12 || c.toNat = 13

/-- Python `str.strip()` on a character list: drop whitespace at both ends. -/
def stripList (l : List Char) : List Char :=
  ((l.dropWhile isPyWhitespace).reverse.dropWhile isPyWhitespace).reverse

/-- Python `value.strip()`. -/
def pyStrip (s : String) : String :=
  ⟨stripList s.data⟩

/-- Python `value.casefold()` as used by the sources (ASCII names):
character-wise lowercasing. -/
def pyCasefold (s : String) : String :=
  ⟨s.data.map Char.toLower⟩

/-- Does `hay` start with `needle` (character lists)? -/
def charsStartWith : List Char → List Char → Bool
  | [], _ => true
  | _ :: _, [] => false
  | n :: ns, h :: hs => n == h && charsStartWith ns hs

/-- Does `hay` contain `needle` as a contiguous run (character lists)? -/
def charsContain (needle : List Char) : List Char → Bool
  | [] => needle.isEmpty
  | h :: t => charsStartWith needle (h :: t) || charsContain needle t

/-- Python `needle in hay` (substring containment). -/
def pySubstr (needle hay : String) : Bool :=
  charsContain needle.data hay.data

/-- Hexadecimal character class `[A-Fa-f0-9]` of the regex in
`_looks_like_trello_id` (codepoint ranges A-F, a-f, 0-9). -/
def isHexChar (c : Char) : Bool :=
  (65 ≤ c.toNat && c.toNat ≤ 70) || (97 ≤ c.toNat && c.toNat ≤ 102)
    || (48 ≤ c.toNat && c.toNat ≤ 57)

/-- Embeds `TrelloPlugin._looks_like_trello_id` (src/main.py:72-74):
`re.fullmatch(r"[A-Fa-f0-9]{24}", value or "")`. -/
def looksLikeTrelloId (value : String) : Bool :=
  value.length = 24 && value.data.all isHexChar

/-- Outcome of `TrelloPlugin._match_named_item` when no item is returned.
The source builds plain message strings; this embedding keeps the
ambiguity candidate list (the `exact[:5]` / `partial[:5]` slice rendered
as `f"{name} ({id})"` pairs) structured so that its size is a provable
property, and `MatchErr.render` below produces the exact source message. -/
inductive MatchErr where
  | emptyQuery : MatchErr
  | ambiguous (query : String) (candidates : List String) : MatchErr
  | notFound (query : String) : MatchErr
deriving DecidableEq, Repr

/-- The `f"{item.get(name_key)} ({item.get(id_key)})"` rendering applied to
the first five candidates (`items[:5]`) in `_match_named_item`. -/
def renderCandidates {α : Type} (getId getName : α → String) (items : List α) : List String :=
  (items.take 5).map (fun it => getName it ++ " (" ++ getId it ++ ")")

/-- The message strings produced by `_match_named_item` (src/main.py:86,100,113,115). -/
def MatchErr.render : MatchErr → String
  | .emptyQuery => "Empty query."
  | .ambiguous q cands => "Ambiguous name: " ++ q ++ ". Matches: " ++ String.intercalate ", " cands
  | .notFound q => "No item matched name: " ++ q

/-- Embeds `TrelloPlugin._match_named_item` (src/main.py:76-115) over any item type
with `id`/`name` projections (the source reads dict keys `id_key`/`name_key`,
always called with the defaults `"id"`/`"name"`). Python returns the pair
`(item | None, err | None)`; here `Except MatchErr α`. -/
def matchNamedItem {α : Type} (getId getName : α → String)
    (items : List α) (query : String) : Except MatchErr α :=
  let q := pyStrip query
  if q = "" then .error .emptyQuery
  else
    let lowered := pyCasefold q
    let exact := items.filter (fun it => pyCasefold (pyStrip (getName it)) == lowered)
    match exact with
    | [it] => .ok it
    | [] =>
      let substrMatches := items.filter (fun it => pySubstr lowered (pyCasefold (pyStrip (getName it))))
      match substrMatches with
      | [it] => .ok it
      | [] => .error (.notFound q)
      | more => .error (.ambiguous q (renderCandidates getId getName more))
    | more => .error (.ambiguous q (renderCandidates getId getName more))

/-- A generic named item (projection of the Python dicts fed to the matcher
in the simplest call sites). -/
structure NamedItem where
  id : String := ""
  name : String := ""
deriving DecidableEq, Repr

/-! ## Entity projections

Typed projections of the Trello JSON objects, carrying exactly the fields
the sources read (`fields=` query parameters of `src/client.py` and the
`.get(...)` accesses of `src/main.py`). A missing/None field is the empty
string / `false` / `[]`, matching the `str(x or "")`-style coercions used
throughout `src/main.py`. -/

/-- Board as returned by `get_boards` (`fields=id,name,url,closed`). -/
structure BoardL where
  id : String := ""
  name : String := ""
  url : String := ""
  closed : Bool := false
deriving DecidableEq, Repr

/-- Board as returned by `get_board` / `create_board` / `update_board`
(`fields=id,name,desc,url,closed,dateLastActivity`). -/
structure BoardFull where
  id : String := ""
  name : String := ""
  desc : String := ""
  url : String := ""
  closed : Bool := false
  dateLastActivity : String := ""
deriving DecidableEq, Repr

/-- List (column) as returned by `get_lists` / `get_list` / list mutations
(`fields=id,name,closed,idBoard,pos`). -/
structure ListL where
  id : String := ""
  name : String := ""
  closed : Bool := false
  idBoard : String := ""
  pos : String := ""
deriving DecidableEq, Repr

/-- Card (`fields=id,name,desc,url,idBoard,idList,closed,due,dueComplete,
dateLastActivity,idChecklists`). -/
structure Card where
  id : String := ""
  name : String := ""
  desc : String := ""
  url : String := ""
  idBoard : String := ""
  idList : String := ""
  closed : Bool := false
  due : String := ""
  dueComplete : Bool := false
  idChecklists : List String := []
deriving DecidableEq, Repr

/-- Check item of a checklist (`id`, `name`, `state`). -/
structure CheckItem where
  id : String := ""
  name : String := ""
  state : String := ""
deriving DecidableEq, Repr

/-- Checklist (`id`, `name`, `idCard`, `checkItems`). -/
structure Checklist where
  id : String := ""
  name : String := ""
  idCard : String := ""
  checkItems : List CheckItem := []
deriving DecidableEq, Repr

/-! ## HTTP layer (`src/client.py`)

`TrelloClient._request` is embedded over an abstract outcome of the
underlying `aiohttp` round trip: either a transport failure (the
`aiohttp.ClientError` / `asyncio.TimeoutError` branch) or a response with a
status code, an optional `Content-Length`, a raw text body, and the result
of attempting to parse the body as JSON (`none` models the
`aiohttp.ContentTypeError` branch of `resp.json()`). -/

/-- Minimal JSON value universe for `_request` results. -/
inductive JsonVal where
  | null : JsonVal
  | bool (b : Bool) : JsonVal
  | num (n : Int) : JsonVal
  | str (s : String) : JsonVal
  | arr (xs : List JsonVal) : JsonVal
  | obj (fields : List (String × JsonVal)) : JsonVal

/-- Outcome of one `aiohttp` round trip, as observed by `_request`. -/
inductive HttpOutcome where
  | transportError (msg : String) : HttpOutcome
  | response (status : Nat) (contentLength : Option Nat) (body : String)
      (parsed : Option JsonVal) : HttpOutcome

/-- Exceptions raised by `TrelloClient._request`: `TrelloAuthError`
("Authentication failed.") or `TrelloApiError` with its message. -/
inductive ReqErr where
  | authError (msg : String) : ReqErr
  | apiError (msg : String) : ReqErr
deriving DecidableEq, Repr

/-- Embeds `TrelloClient._request` (src/client.py:53-82), given the outcome of the
underlying HTTP round trip:
401/403 raise `TrelloAuthError`; other statuses `>= 400` raise
`TrelloApiError(f"HTTP {status}: {body[:300]}")`; `content_length == 0`
yields `{}`; an unparsable body yields `{"text": body}`; a transport
failure raises `TrelloApiError(f"Network error: {exc}")`. -/
def request : HttpOutcome → Except ReqErr JsonVal
  | .transportError msg => .error (.apiError ("Network error: " ++ msg))
  | .response status contentLength body parsed =>
    if status = 401 ∨ status = 403 then .error (.authError "Authentication failed.")
    else if status ≥ 400 then
      .error (.apiError ("HTTP " ++ toString status ++ ": " ++ body.take 300))
    else if contentLength = some 0 then .ok (.obj [])
    else
      match parsed with
      | some j => .ok j
      | none => .ok (.obj [("text", .str body)])

/-! ## Client list endpoints and their closed-item filtering (`src/client.py`)

The list-returning client methods validate the response shape
(`_ensure_list_of_dict` / `_ensure_dict`) and then filter out items whose
`closed` field is truthy. The embedding works on the typed projections
above, i.e. on responses that already passed shape validation; the
transport is a record of per-endpoint results (an `Except.error` models a
raised exception from `_request`). -/

/-- Raw (already shape-validated) per-endpoint responses of the remote API,
before any filtering done in `src/client.py`. -/
structure Transport where
  membersMeBoards : Except ReqErr (List BoardL)
  boardLists : String → Except ReqErr (List ListL)
  listCardsRaw : String → Nat → Except ReqErr (List Card)
  searchCardsRaw : String → String → Nat → Except ReqErr (List Card)
  boardById : String → Except ReqErr BoardFull
  cardById : String → Except ReqErr Card

/-- Embeds `TrelloClient.get_boards` (src/client.py:84-93): fetch
`/members/me/boards` and keep items with falsy `closed`. -/
def clientGetBoards (t : Transport) : Except ReqErr (List BoardL) :=
  match t.membersMeBoards with
  | .error e => .error e
  | .ok data => .ok (data.filter (fun item => !item.closed))

/-- Embeds `TrelloClient.get_lists` (src/client.py:95-110): fetch
`/boards/{board_id}/lists` and keep items with falsy `closed`. -/
def clientGetLists (t : Transport) (boardId : String) : Except ReqErr (List ListL) :=
  match t.boardLists boardId with
  | .error e => .error e
  | .ok data => .ok (data.filter (fun item => !item.closed))

/-- Embeds `TrelloClient.get_list_cards` (src/client.py:301-320): fetch
`/lists/{list_id}/cards` with `limit` clamped to `max(1, min(limit, 100))`
and keep items with falsy `closed`. -/
def clientGetListCards (t : Transport) (listId : String) (limit : Nat) :
    Except ReqErr (List Card) :=
  match t.listCardsRaw listId (max 1 (min limit 100)) with
  | .error e => .error e
  | .ok data => .ok (data.filter (fun item => !item.closed))

/-- Embeds `TrelloClient.search_cards` (src/client.py:150-175): `/search` with
`cards_limit` clamped to `max(1, min(limit, 50))`; the `cards` entry of the
response object is filtered on falsy `closed`. -/
def clientSearchCards (t : Transport) (boardId keyword : String) (limit : Nat) :
    Except ReqErr (List Card) :=
  match t.searchCardsRaw boardId keyword (max 1 (min limit 50)) with
  | .error e => .error e
  | .ok cards => .ok (cards.filter (fun item => !item.closed))

/-- Embeds `TrelloClient.get_board` (src/client.py:209-222): returns the fetched
object with no filtering. -/
def clientGetBoard (t : Transport) (boardId : String) : Except ReqErr BoardFull :=
  t.boardById boardId

/-- Embeds `TrelloClient.get_card` (src/client.py:322-337): returns the fetched
object with no filtering. -/
def clientGetCard (t : Transport) (cardId : String) : Except ReqErr Card :=
  t.cardById cardId

/-! ## Session store and Gateway interface (`src/main.py`)

The per-conversation key-value entries `board_id` / `list_id` / `card_id` /
`done_list_id` (`_session_key`, `_get_session_*`, `_set_current_*`) become
one `Session` record; the empty string models an unset entry, matching the
`str(await self.get_kv_data(...) or "")` coercion.

`Gateway` is the `self.client` interface as consumed by `src/main.py`
(i.e. after the filtering of `src/client.py`); an `Except.error` models a
raised `TrelloAuthError` (`.authError`) or `TrelloApiError` (`.apiError`),
which propagates out of the resolvers and is caught at each command/tool
boundary. Every embedded operation additionally returns the list of
Gateway calls it issued, in order. -/

/-- Per-conversation session context. -/
structure Session where
  board_id : String := ""
  list_id : String := ""
  card_id : String := ""
  done_list_id : String := ""
deriving DecidableEq, Repr

/-- One Gateway (client-method) invocation, with its arguments. -/
inductive GCall where
  | getBoards : GCall
  | getLists (boardId : String) : GCall
  | getListCards (listId : String) (limit : Nat) : GCall
  | searchCards (boardId keyword : String) (limit : Nat) : GCall
  | getBoard (boardId : String) : GCall
  | getList (listId : String) : GCall
  | getCard (cardId : String) : GCall
  | getCardChecklists (cardId : String) : GCall
  | getChecklist (checklistId : String) : GCall
  | createBoard (name desc : String) : GCall
  | updateBoard (boardId : String) (params : List (String × String)) : GCall
  | archiveBoard (boardId : String) : GCall
  | createList (boardId name : String) : GCall
  | renameList (listId name : String) : GCall
  | archiveList (listId : String) : GCall
  | createCard (listId title desc : String) : GCall
  | updateCard (cardId : String) (params : List (String × String)) : GCall
  | deleteCard (cardId : String) : GCall
  | createChecklist (cardId name : String) : GCall
  | updateChecklist (checklistId : String) (params : List (String × String)) : GCall
  | deleteChecklist (checklistId : String) : GCall
  | addCheckItem (checklistId name : String) : GCall
  | updateCheckItem (cardId checkItemId : String) (params : List (String × String)) : GCall
  | deleteCheckItem (checklistId checkItemId : String) : GCall
deriving DecidableEq, Repr

/-- Behaviour of the Trello client as seen from `src/main.py`. -/
structure Gateway where
  getBoards : Except ReqErr (List BoardL)
  getLists : String → Except ReqErr (List ListL)
  getListCards : String → Nat → Except ReqErr (List Card)
  searchCards : String → String → Nat → Except ReqErr (List Card)
  getBoard : String → Except ReqErr BoardFull
  getList : String → Except ReqErr ListL
  getCard : String → Except ReqErr Card
  getCardChecklists : String → Except ReqErr (List Checklist)
  getChecklist : String → Except ReqErr Checklist
  createBoard : String → String → Except ReqErr BoardFull
  updateBoard : String → List (String × String) → Except ReqErr BoardFull
  archiveBoard : String → Except ReqErr BoardFull
  createList : String → String → Except ReqErr ListL
  renameList : String → String → Except ReqErr ListL
  archiveList : String → Except ReqErr ListL
  createCard : String → String → String → Except ReqErr Card
  updateCard : String → List (String × String) → Except ReqErr Card
  deleteCard : String → Except ReqErr Unit
  createChecklist : String → String → Except ReqErr Checklist
  updateChecklist : String → List (String × String) → Except ReqErr Checklist
  deleteChecklist : String → Except ReqErr Unit
  addCheckItem : String → String → Except ReqErr CheckItem
  updateCheckItem : String → String → List (String × String) → Except ReqErr CheckItem
  deleteCheckItem : String → String → Except ReqErr Unit

/-- Result of a resolver: either a propagated Gateway exception, or the
Python triple `(resolved_id, object_or_None, error_or_None)`; paired with
the trace of Gateway calls issued. -/
abbrev ResolveOut (α : Type) := Except ReqErr (String × Option α × Option String) × List GCall

/-- Embeds `TrelloPlugin._resolve_board_ref` (src/main.py:117-137). -/
def resolveBoardRef (gw : Gateway) (sess : Session) (boardRef : String) :
    ResolveOut BoardL :=
  let ref0 := pyStrip boardRef
  let ref := if ref0 = "" then sess.board_id else ref0
  if ref = "" then
    (.ok ("", none, some "No board selected. Use /trello use-board <board_id|name> first."), [])
  else if looksLikeTrelloId ref then
    (.ok (ref, none, none), [])
  else
    match gw.getBoards with
    | .error e => (.error e, [.getBoards])
    | .ok boards =>
      match matchNamedItem BoardL.id BoardL.name boards ref with
      | .error me => (.ok ("", none, some me.render), [.getBoards])
      | .ok item => (.ok (item.id, some item, none), [.getBoards])

/-- Embeds `TrelloPlugin._resolve_list_ref` (src/main.py:139-169). -/
def resolveListRef (gw : Gateway) (sess : Session) (listRef : String) :
    ResolveOut ListL :=
  let ref0 := pyStrip listRef
  let ref := if ref0 = "" then sess.list_id else ref0
  if ref = "" then
    (.ok ("", none, some "No list selected. Use /trello use-list <list_id|name> first."), [])
  else if looksLikeTrelloId ref then
    (.ok (ref, none, none), [])
  else if sess.board_id = "" then
    (.ok ("", none, some "List name lookup requires a selected board. Use /trello use-board <board_id|name> first."), [])
  else
    match gw.getLists sess.board_id with
    | .error e => (.error e, [.getLists sess.board_id])
    | .ok lists =>
      match matchNamedItem ListL.id ListL.name lists ref with
      | .error me => (.ok ("", none, some me.render), [.getLists sess.board_id])
      | .ok item => (.ok (item.id, some item, none), [.getLists sess.board_id])

/-- Second half of `TrelloPlugin._resolve_card_ref` (src/main.py:195-213):
the board-wide keyword search, reached when no list scope exists or when
the list-scoped lookup produced no unique match. `callsSoFar` carries the
trace of the list-scoped attempt. -/
def cardBoardSearch (gw : Gateway) (sess : Session) (ref : String)
    (callsSoFar : List GCall) : ResolveOut Card :=
  if sess.board_id = "" then
    (.ok ("", none, some "Card name lookup requires a selected list or board. Use /trello use-list or /trello use-board first."), callsSoFar)
  else
    match gw.searchCards sess.board_id ref 20 with
    | .error e => (.error e, callsSoFar ++ [.searchCards sess.board_id ref 20])
    | .ok cards =>
      match matchNamedItem Card.id Card.name cards ref with
      | .error me => (.ok ("", none, some me.render), callsSoFar ++ [.searchCards sess.board_id ref 20])
      | .ok item => (.ok (item.id, some item, none), callsSoFar ++ [.searchCards sess.board_id ref 20])

/-- Embeds `TrelloPlugin._resolve_card_ref` (src/main.py:171-213). When the session
holds a list scope the list's cards are fetched and matched first; the code
returns early only on a successful match (`if not err:`), so any matcher
error — not-found included — falls through to the board-wide search. -/
def resolveCardRef (gw : Gateway) (sess : Session) (cardRef : String) :
    ResolveOut Card :=
  let ref0 := pyStrip cardRef
  let ref := if ref0 = "" then sess.card_id else ref0
  if ref = "" then
    (.ok ("", none, some "Usage: /trello card <card_id|name>"), [])
  else if looksLikeTrelloId ref then
    (.ok (ref, none, none), [])
  else if sess.list_id ≠ "" then
    match gw.getListCards sess.list_id 100 with
    | .error e => (.error e, [.getListCards sess.list_id 100])
    | .ok cards =>
      match matchNamedItem Card.id Card.name cards ref with
      | .ok item => (.ok (item.id, some item, none), [.getListCards sess.list_id 100])
      | .error _ => cardBoardSearch gw sess ref [.getListCards sess.list_id 100]
  else
    cardBoardSearch gw sess ref []

/-- Embeds `TrelloPlugin._normalize_resource` (src/main.py:224-237):
`(resource or "").strip().lower().replace("-", "_")` then the alias table. -/
def normalizeResource (resource : String) : String :=
  let value : String :=
    ⟨((pyStrip resource).data.map Char.toLower).map (fun c => if c = '-' then '_' else c)⟩
  if value = "boards" then "board"
  else if value = "lists" then "list"
  else if value = "cards" then "card"
  else if value = "checklists" then "checklist"
  else if value = "items" then "checklist_item"
  else if value = "check_items" then "checklist_item"
  else if value = "checkitem" then "checklist_item"
  else if value = "check_item" then "checklist_item"
  else value

/-- Embeds `TrelloPlugin._normalize_mode` (src/main.py:239-241):
`(mode or "").strip().lower()`. -/
def normalizeMode (mode : String) : String :=
  ⟨(pyStrip mode).data.map Char.toLower⟩

/-- Embeds `TrelloPlugin._resolve_card_with_optional_parent` (src/main.py:266-319).
An explicit list/board parent scope (with a non-ID-shaped card reference)
bypasses the session-scoped `_resolve_card_ref` path. -/
def resolveCardWithOptionalParent (gw : Gateway) (sess : Session)
    (cardRef parentResource parentIdOrName : String) : ResolveOut Card :=
  let pRes := normalizeResource parentResource
  let pRef := pyStrip parentIdOrName
  if pRes = "list" ∧ pRef ≠ "" ∧ looksLikeTrelloId cardRef = false then
    match resolveListRef gw sess pRef with
    | (.error e, calls) => (.error e, calls)
    | (.ok (listId, _, err), calls) =>
      if err.isSome ∨ listId = "" then
        (.ok ("", none, some (err.getD "List not found.")), calls)
      else
        match gw.getListCards listId 100 with
        | .error e => (.error e, calls ++ [.getListCards listId 100])
        | .ok cards =>
          match matchNamedItem Card.id Card.name cards cardRef with
          | .error me => (.ok ("", none, some me.render), calls ++ [.getListCards listId 100])
          | .ok item => (.ok (item.id, some item, none), calls ++ [.getListCards listId 100])
  else if pRes = "board" ∧ pRef ≠ "" ∧ looksLikeTrelloId cardRef = false then
    match resolveBoardRef gw sess pRef with
    | (.error e, calls) => (.error e, calls)
    | (.ok (boardId, _, err), calls) =>
      if err.isSome ∨ boardId = "" then
        (.ok ("", none, some (err.getD "Board not found.")), calls)
      else
        match gw.searchCards boardId cardRef 20 with
        | .error e => (.error e, calls ++ [.searchCards boardId cardRef 20])
        | .ok cards =>
          match matchNamedItem Card.id Card.name cards cardRef with
          | .error me => (.ok ("", none, some me.render), calls ++ [.searchCards boardId cardRef 20])
          | .ok item => (.ok (item.id, some item, none), calls ++ [.searchCards boardId cardRef 20])
  else
    resolveCardRef gw sess cardRef

/-- Embeds `TrelloPlugin._resolve_checklist_ref` (src/main.py:321-375). Returns the
Python tuple `(checklist_id, card_id, object_or_None, error_or_None)`.
An ID-shaped reference is returned as-is: when a card context exists its
checklist listing is scanned for the ID only to attach the object, and a
miss still returns the ID with object `none` and no error. -/
def resolveChecklistRef (gw : Gateway) (sess : Session)
    (checklistRef cardRef parentResource parentIdOrName : String) :
    Except ReqErr (String × String × Option Checklist × Option String) × List GCall :=
  let ref := pyStrip checklistRef
  if ref = "" then
    (.ok ("", "", none, some "Checklist id or name is required."), [])
  else
    let cardCtx : Except ReqErr (Except String String) × List GCall :=
      if parentResource ≠ "" ∧ normalizeResource parentResource = "card" then
        match resolveCardWithOptionalParent gw sess parentIdOrName "" "" with
        | (.error e, calls) => (.error e, calls)
        | (.ok (cid, _, err), calls) =>
          match err with
          | some msg => (.ok (.error msg), calls)
          | none =>
            if cid = "" then (.ok (.error "Card not found."), calls)
            else (.ok (.ok cid), calls)
      else if cardRef ≠ "" then
        match resolveCardWithOptionalParent gw sess cardRef "" "" with
        | (.error e, calls) => (.error e, calls)
        | (.ok (cid, _, err), calls) =>
          match err with
          | some msg => (.ok (.error msg), calls)
          | none =>
            if cid = "" then (.ok (.error "Card not found."), calls)
            else (.ok (.ok cid), calls)
      else (.ok (.ok ""), [])
    match cardCtx with
    | (.error e, calls) => (.error e, calls)
    | (.ok (.error msg), calls) => (.ok ("", "", none, some msg), calls)
    | (.ok (.ok cardIdForLookup), calls) =>
      if looksLikeTrelloId ref then
        if cardIdForLookup ≠ "" then
          match gw.getCardChecklists cardIdForLookup with
          | .error e => (.error e, calls ++ [.getCardChecklists cardIdForLookup])
          | .ok checklists =>
            match checklists.find? (fun item => item.id == ref) with
            | some item =>
              (.ok (ref, cardIdForLookup, some item, none), calls ++ [.getCardChecklists cardIdForLookup])
            | none =>
              (.ok (ref, cardIdForLookup, none, none), calls ++ [.getCardChecklists cardIdForLookup])
        else
          (.ok (ref, cardIdForLookup, none, none), calls)
      else if cardIdForLookup = "" then
        (.ok ("", "", none, some "Checklist name lookup requires a card context."), calls)
      else
        match gw.getCardChecklists cardIdForLookup with
        | .error e => (.error e, calls ++ [.getCardChecklists cardIdForLookup])
        | .ok checklists =>
          match matchNamedItem Checklist.id Checklist.name checklists ref with
          | .error me =>
            (.ok ("", "", none, some me.render), calls ++ [.getCardChecklists cardIdForLookup])
          | .ok item =>
            (.ok (item.id, cardIdForLookup, some item, none), calls ++ [.getCardChecklists cardIdForLookup])

/-- Embeds `TrelloPlugin._resolve_checklist_item_ref` (src/main.py:377-445). Returns
the Python tuple `(item_id, checklist_id, card_id, object_or_None,
error_or_None)`. An ID-shaped item reference missing from the checklist's
`checkItems` is returned with object `none` and no error. -/
def resolveChecklistItemRef (gw : Gateway) (sess : Session)
    (itemRef checklistRef cardRef parentResource parentIdOrName : String) :
    Except ReqErr (String × String × String × Option CheckItem × Option String) × List GCall :=
  let ref := pyStrip itemRef
  if ref = "" then
    (.ok ("", "", "", none, some "Checklist item id or name is required."), [])
  else
    let normParent := normalizeResource parentResource
    let ckCtx : Except ReqErr (Except String (String × String × Option Checklist)) × List GCall :=
      if normParent = "checklist" ∧ parentIdOrName ≠ "" then
        match resolveChecklistRef gw sess parentIdOrName cardRef "" "" with
        | (.error e, calls) => (.error e, calls)
        | (.ok (ckId, cId, ck, err), calls) =>
          match err with
          | some msg => (.ok (.error msg), calls)
          | none =>
            if ckId = "" then (.ok (.error "Checklist not found."), calls)
            else (.ok (.ok (ckId, cId, ck)), calls)
      else if checklistRef ≠ "" then
        match resolveChecklistRef gw sess checklistRef cardRef "" "" with
        | (.error e, calls) => (.error e, calls)
        | (.ok (ckId, cId, ck, err), calls) =>
          match err with
          | some msg => (.ok (.error msg), calls)
          | none =>
            if ckId = "" then (.ok (.error "Checklist not found."), calls)
            else (.ok (.ok (ckId, cId, ck)), calls)
      else
        (.ok (.error "Checklist item operations require checklist_id_or_name (via parent or fields)."), [])
    match ckCtx with
    | (.error e, calls) => (.error e, calls)
    | (.ok (.error msg), calls) => (.ok ("", "", "", none, some msg), calls)
    | (.ok (.ok (checklistId, cardId0, ckOpt)), calls) =>
      let fetched : Except ReqErr Checklist × List GCall :=
        match ckOpt with
        | some ck => (.ok ck, calls)
        | none =>
          match gw.getChecklist checklistId with
          | .error e => (.error e, calls ++ [.getChecklist checklistId])
          | .ok ck => (.ok ck, calls ++ [.getChecklist checklistId])
      match fetched with
      | (.error e, calls2) => (.error e, calls2)
      | (.ok checklist, calls2) =>
        let cardId := if cardId0 = "" then checklist.idCard else cardId0
        if looksLikeTrelloId ref then
          match checklist.checkItems.find? (fun item => item.id == ref) with
          | some item => (.ok (ref, checklistId, cardId, some item, none), calls2)
          | none => (.ok (ref, checklistId, cardId, none, none), calls2)
        else
          match matchNamedItem CheckItem.id CheckItem.name checklist.checkItems ref with
          | .error me => (.ok ("", "", "", none, some me.render), calls2)
          | .ok item => (.ok (item.id, checklistId, cardId, some item, none), calls2)

/-! ## Context synchronization and the command/tool surface (`src/main.py`)

Commands and LLM tools are embedded as functions from credentials, Gateway
behaviour and the current session to `(outcome, new session, calls)`.
The outcome is `Except String String`: `.error` collects every early
return carrying an error/usage message (missing credentials, resolver
errors, caught `TrelloAuthError`/`TrelloApiError`), `.ok` the success
message. -/

/-- Plugin credentials (`trello_api_key` / `trello_token` config entries,
read by `_get_credentials`). -/
structure Creds where
  apiKey : String := ""
  token : String := ""
deriving DecidableEq, Repr

/-- The `except TrelloAuthError` / `except TrelloApiError` handlers present
at every command/tool boundary of `src/main.py`. -/
def renderReqErr : ReqErr → String
  | .authError _ => "Trello authentication failed. Check key/token."
  | .apiError msg => "Trello error: " ++ msg

/-- Python `repr`/f-string rendering of a boolean. -/
def pyBool (b : Bool) : String :=
  if b then "True" else "False"

/-- Python `a or b or ""` over two optional string fields. -/
def orElseStr (a b : Option String) : String :=
  if a.getD "" ≠ "" then a.getD "" else b.getD ""

/-- Outcome of an embedded command/tool: result, final session, call trace. -/
abbrev CmdOut := Except String String × Session × List GCall

/-- Embeds `TrelloPlugin._sync_context_from_card` (src/main.py:251-264): write the
card's `idBoard` / `idList` / `id` into the session, each only when
non-empty. -/
def syncContextFromCard (sess : Session) (card : Card) : Session :=
  let s1 := if card.idBoard ≠ "" then { sess with board_id := card.idBoard } else sess
  let s2 := if card.idList ≠ "" then { s1 with list_id := card.idList } else s1
  if card.id ≠ "" then { s2 with card_id := card.id } else s2

/-- The `use_board` command (src/main.py:513-544). On success the session
board is set and the session card is cleared. -/
def useBoard (creds : Creds) (gw : Gateway) (sess : Session) (boardId : String) : CmdOut :=
  if boardId = "" then
    (.error "Usage: /trello use-board <board_id|name>", sess, [])
  else if creds.apiKey = "" ∨ creds.token = "" then
    (.error "Trello credentials are not configured. Set trello_api_key and trello_token in plugin config.", sess, [])
  else
    match resolveBoardRef gw sess boardId with
    | (.error e, calls) => (.error (renderReqErr e), sess, calls)
    | (.ok (rid, board, err), calls) =>
      if err.isSome ∨ rid = "" then
        (.error (err.getD "Board not found."), sess, calls)
      else
        let display := match board with | some b => b.name | none => rid
        (.ok ("Default board set for this session: " ++ display ++ " (" ++ rid ++ ")"),
          { sess with board_id := rid, card_id := "" }, calls)

/-- The `use_list` command (src/main.py:546-578). On success the session
list is set and the session card is cleared. -/
def useList (creds : Creds) (gw : Gateway) (sess : Session) (listId : String) : CmdOut :=
  if listId = "" then
    (.error "Usage: /trello use-list <list_id|name>", sess, [])
  else if creds.apiKey = "" ∨ creds.token = "" then
    (.error "Trello credentials are not configured. Set trello_api_key and trello_token in plugin config.", sess, [])
  else
    match resolveListRef gw sess listId with
    | (.error e, calls) => (.error (renderReqErr e), sess, calls)
    | (.ok (rid, listItem, err), calls) =>
      if err.isSome ∨ rid = "" then
        (.error (err.getD "List not found."), sess, calls)
      else
        let display := match listItem with | some l => l.name | none => rid
        (.ok ("Default list set for this session: " ++ display ++ " (" ++ rid ++ ")"),
          { sess with list_id := rid, card_id := "" }, calls)

/-- Detail lines of the `card` command (src/main.py:1052-1063). -/
def cardDetails (card : Card) (preview : Option Card) : String :=
  let base :=
    "Card: " ++ card.name ++ " (" ++ card.id ++ ")\n" ++
    "Board: " ++ card.idBoard ++ "\n" ++
    "List: " ++ card.idList ++ "\n" ++
    "Closed: " ++ pyBool card.closed ++ "\n" ++
    "Due: " ++ (if card.due = "" then "-" else card.due) ++ " complete=" ++ pyBool card.dueComplete ++ "\n" ++
    "Checklists: " ++ toString card.idChecklists.length ++ "\n" ++
    "URL: " ++ card.url ++ "\n" ++
    "Desc: " ++ (if card.desc = "" then "-" else card.desc)
  match preview with
  | some p => if p.name ≠ "" then base ++ "\nMatched by name: " ++ p.name else base
  | none => base

/-- The `card` command (src/main.py:1017-1064): resolve, fetch the card,
then write `card_id` and the card's non-empty `idBoard` / `idList` into the
session. -/
def cardCmd (creds : Creds) (gw : Gateway) (sess : Session) (cardId : String) : CmdOut :=
  if creds.apiKey = "" ∨ creds.token = "" then
    (.error "Trello credentials are not configured. Set trello_api_key and trello_token in plugin config.", sess, [])
  else
    match resolveCardRef gw sess cardId with
    | (.error e, calls) => (.error (renderReqErr e), sess, calls)
    | (.ok (cid, preview, err), calls) =>
      if err.isSome ∨ cid = "" then
        (.error (err.getD "Usage: /trello card <card_id|name>"), sess, calls)
      else
        match gw.getCard cid with
        | .error e => (.error (renderReqErr e), sess, calls ++ [.getCard cid])
        | .ok card =>
          let s1 := { sess with card_id := cid }
          let s2 := if card.idBoard ≠ "" then { s1 with board_id := card.idBoard } else s1
          let s3 := if card.idList ≠ "" then { s2 with list_id := card.idList } else s2
          (.ok (cardDetails card preview), s3, calls ++ [.getCard cid])

/-- The `trello_select` LLM tool (src/main.py:1546-1639). -/
def selectTool (creds : Creds) (gw : Gateway) (sess : Session)
    (resource idOrName parentResource parentIdOrName : String) : CmdOut :=
  if creds.apiKey = "" ∨ creds.token = "" then
    (.error "Trello credentials are not configured.", sess, [])
  else
    let res := normalizeResource resource
    if res = "board" then
      match resolveBoardRef gw sess idOrName with
      | (.error e, calls) => (.error (renderReqErr e), sess, calls)
      | (.ok (bid, board, err), calls) =>
        if err.isSome ∨ bid = "" then (.error (err.getD "Board not found."), sess, calls)
        else
          let name := match board with | some b => b.name | none => ""
          (.ok ("Selected board: " ++ (if name = "" then bid else name) ++ " (" ++ bid ++ ")"),
            { sess with board_id := bid, card_id := "" }, calls)
    else if res = "list" then
      match resolveListRef gw sess idOrName with
      | (.error e, calls) => (.error (renderReqErr e), sess, calls)
      | (.ok (lid, listItem, err), calls) =>
        if err.isSome ∨ lid = "" then (.error (err.getD "List not found."), sess, calls)
        else
          let name := match listItem with | some l => l.name | none => ""
          (.ok ("Selected list: " ++ (if name = "" then lid else name) ++ " (" ++ lid ++ ")"),
            { sess with list_id := lid, card_id := "" }, calls)
    else if res = "card" then
      match resolveCardWithOptionalParent gw sess idOrName parentResource parentIdOrName with
      | (.error e, calls) => (.error (renderReqErr e), sess, calls)
      | (.ok (cid, _, err), calls) =>
        if err.isSome ∨ cid = "" then (.error (err.getD "Card not found."), sess, calls)
        else
          match gw.getCard cid with
          | .error e => (.error (renderReqErr e), sess, calls ++ [.getCard cid])
          | .ok card =>
            (.ok ("Selected card: " ++ card.name ++ " (" ++ cid ++ ")"),
              syncContextFromCard sess card, calls ++ [.getCard cid])
    else if res = "checklist" then
      match resolveChecklistRef gw sess idOrName "" parentResource parentIdOrName with
      | (.error e, calls) => (.error (renderReqErr e), sess, calls)
      | (.ok (ckId, cardId, ckOpt, err), calls) =>
        if err.isSome ∨ ckId = "" then (.error (err.getD "Checklist not found."), sess, calls)
        else
          let fetched : Except ReqErr Checklist × List GCall :=
            match ckOpt with
            | some ck => (.ok ck, calls)
            | none =>
              match gw.getChecklist ckId with
              | .error e => (.error e, calls ++ [.getChecklist ckId])
              | .ok ck => (.ok ck, calls ++ [.getChecklist ckId])
          match fetched with
          | (.error e, calls2) => (.error (renderReqErr e), sess, calls2)
          | (.ok checklist, calls2) =>
            if cardId ≠ "" then
              match gw.getCard cardId with
              | .error e => (.error (renderReqErr e), sess, calls2 ++ [.getCard cardId])
              | .ok card =>
                (.ok ("Selected checklist: " ++ checklist.name ++ " (" ++ ckId ++ ")"),
                  syncContextFromCard sess card, calls2 ++ [.getCard cardId])
            else
              (.ok ("Selected checklist: " ++ checklist.name ++ " (" ++ ckId ++ ")"), sess, calls2)
    else
      (.error "Unsupported resource for trello_select. Use board, list, card, checklist.", sess, [])

/-! ## The `trello_write` LLM tool (src/main.py:1933-2270)

The Python `fields` dict is projected to the keys the tool reads; a `some`
value models key presence (`"name" in fields`), matching the
`fields.get(key)` accesses. `closed` / `checked` carry the boolean that
`_bool_field` evaluates to. The large `if resource == ...` chain is split
into one helper per resource, each embedding the corresponding block of
`trello_write_tool` verbatim. -/

/-- Mutation fields of `trello_write` (`fields` argument). -/
structure Fields where
  name : Option String := none
  title : Option String := none
  desc : Option String := none
  description : Option String := none
  closed : Option Bool := none
  board_id : Option String := none
  list_id : Option String := none
  card_id : Option String := none
  checklist_id : Option String := none
  due : Option String := none
  checked : Option Bool := none
deriving DecidableEq, Repr

/-- Embeds `TrelloPlugin._bool_field` (src/main.py:498-506) on the typed
projection: a missing value falls back to the default. -/
def boolField (v : Option Bool) (dflt : Bool := false) : Bool :=
  v.getD dflt

/-- Embeds the `trello_write_tool` `resource == "board"` block (src/main.py:1973-2017). -/
def writeToolBoard (gw : Gateway) (sess : Session) (act idOrName : String)
    (fields : Fields) (switchContext : Bool) : CmdOut :=
  if act = "create" then
    let name := pyStrip (fields.name.getD "")
    let desc := pyStrip (orElseStr fields.desc fields.description)
    if name = "" then (.error "board.create requires fields.name.", sess, [])
    else
      match gw.createBoard name desc with
      | .error e => (.error (renderReqErr e), sess, [.createBoard name desc])
      | .ok board =>
        let sess' := if switchContext then { sess with board_id := board.id } else sess
        (.ok ("Created board: " ++ board.name ++ " (" ++ board.id ++ ")"), sess',
          [.createBoard name desc])
  else
    match resolveBoardRef gw sess idOrName with
    | (.error e, calls) => (.error (renderReqErr e), sess, calls)
    | (.ok (bid, _, err), calls) =>
      if err.isSome ∨ bid = "" then (.error (err.getD "Board not found."), sess, calls)
      else if act = "update" then
        let params :=
          (if fields.name.isSome then [("name", fields.name.getD "")] else [])
          ++ (if fields.desc.isSome ∨ fields.description.isSome then
                [("desc", orElseStr fields.desc fields.description)] else [])
          ++ (if fields.closed.isSome then
                [("closed", if boolField fields.closed then "true" else "false")] else [])
        if params = [] then
          (.error "board.update requires at least one field in \x7bname, desc, closed\x7d.", sess, calls)
        else
          match gw.updateBoard bid params with
          | .error e => (.error (renderReqErr e), sess, calls ++ [.updateBoard bid params])
          | .ok board =>
            let sess' := if switchContext then { sess with board_id := bid } else sess
            (.ok ("Updated board: " ++ board.name ++ " (" ++ board.id ++ ")"), sess',
              calls ++ [.updateBoard bid params])
      else
        match gw.archiveBoard bid with
        | .error e => (.error (renderReqErr e), sess, calls ++ [.archiveBoard bid])
        | .ok board =>
          (.ok ("Archived board: " ++ board.name ++ " (" ++ board.id ++ ")"), sess,
            calls ++ [.archiveBoard bid])

/-- Embeds the `trello_write_tool` `resource == "list"` block (src/main.py:2019-2065). -/
def writeToolList (gw : Gateway) (sess : Session)
    (act idOrName parentResource parentIdOrName : String)
    (fields : Fields) (switchContext : Bool) : CmdOut :=
  if act = "create" then
    let name := pyStrip (fields.name.getD "")
    if name = "" then (.error "list.create requires fields.name.", sess, [])
    else
      let boardRef :=
        if normalizeResource parentResource = "board" then parentIdOrName
        else fields.board_id.getD ""
      match resolveBoardRef gw sess boardRef with
      | (.error e, calls) => (.error (renderReqErr e), sess, calls)
      | (.ok (bid, _, err), calls) =>
        if err.isSome ∨ bid = "" then
          (.error (err.getD "Board not found for list.create."), sess, calls)
        else
          match gw.createList bid name with
          | .error e => (.error (renderReqErr e), sess, calls ++ [.createList bid name])
          | .ok listItem =>
            let sess' :=
              if switchContext then { sess with board_id := bid, list_id := listItem.id }
              else sess
            (.ok ("Created list: " ++ listItem.name ++ " (" ++ listItem.id ++ ")"), sess',
              calls ++ [.createList bid name])
  else
    match resolveListRef gw sess idOrName with
    | (.error e, calls) => (.error (renderReqErr e), sess, calls)
    | (.ok (lid, _, err), calls) =>
      if err.isSome ∨ lid = "" then (.error (err.getD "List not found."), sess, calls)
      else if act = "update" then
        let name := pyStrip (fields.name.getD "")
        if name = "" then (.error "list.update currently supports fields.name.", sess, calls)
        else
          match gw.renameList lid name with
          | .error e => (.error (renderReqErr e), sess, calls ++ [.renameList lid name])
          | .ok listItem =>
            let sess' := if switchContext then { sess with list_id := lid } else sess
            (.ok ("Updated list: " ++ listItem.name ++ " (" ++ listItem.id ++ ")"), sess',
              calls ++ [.renameList lid name])
      else
        match gw.archiveList lid with
        | .error e => (.error (renderReqErr e), sess, calls ++ [.archiveList lid])
        | .ok listItem =>
          (.ok ("Archived list: " ++ listItem.name ++ " (" ++ listItem.id ++ ")"), sess,
            calls ++ [.archiveList lid])

/-- Embeds the `trello_write_tool` `resource == "card"` block (src/main.py:2067-2136). -/
def writeToolCard (gw : Gateway) (sess : Session)
    (act idOrName parentResource parentIdOrName : String)
    (fields : Fields) (switchContext : Bool) : CmdOut :=
  if act = "create" then
    let title := pyStrip (orElseStr fields.name fields.title)
    let desc := pyStrip (orElseStr fields.desc fields.description)
    if title = "" then (.error "card.create requires fields.name (or fields.title).", sess, [])
    else
      let listRef :=
        if normalizeResource parentResource = "list" then parentIdOrName
        else fields.list_id.getD ""
      match resolveListRef gw sess listRef with
      | (.error e, calls) => (.error (renderReqErr e), sess, calls)
      | (.ok (lid, _, err), calls) =>
        if err.isSome ∨ lid = "" then
          (.error (err.getD "List not found for card.create."), sess, calls)
        else
          match gw.createCard lid title desc with
          | .error e => (.error (renderReqErr e), sess, calls ++ [.createCard lid title desc])
          | .ok card =>
            let sess' :=
              if switchContext then { sess with list_id := lid, card_id := card.id }
              else sess
            (.ok ("Created card: " ++ card.name ++ " (" ++ card.id ++ ")"), sess',
              calls ++ [.createCard lid title desc])
  else
    match resolveCardWithOptionalParent gw sess idOrName parentResource parentIdOrName with
    | (.error e, calls) => (.error (renderReqErr e), sess, calls)
    | (.ok (cid, _, err), calls) =>
      if err.isSome ∨ cid = "" then (.error (err.getD "Card not found."), sess, calls)
      else if act = "update" then
        let params :=
          (if fields.name.isSome then [("name", fields.name.getD "")] else [])
          ++ (if fields.desc.isSome ∨ fields.description.isSome then
                [("desc", orElseStr fields.desc fields.description)] else [])
          ++ (if fields.due.isSome then [("due", fields.due.getD "")] else [])
          ++ (if fields.list_id.isSome then [("idList", fields.list_id.getD "")] else [])
          ++ (if fields.closed.isSome then
                [("closed", if boolField fields.closed then "true" else "false")] else [])
        if params = [] then
          (.error "card.update requires one of fields \x7bname, desc, due, list_id, closed\x7d.", sess, calls)
        else
          match gw.updateCard cid params with
          | .error e => (.error (renderReqErr e), sess, calls ++ [.updateCard cid params])
          | .ok card =>
            let sess' := if switchContext then syncContextFromCard sess card else sess
            (.ok ("Updated card: " ++ card.name ++ " (" ++ card.id ++ ")"), sess',
              calls ++ [.updateCard cid params])
      else
        match gw.deleteCard cid with
        | .error e => (.error (renderReqErr e), sess, calls ++ [.deleteCard cid])
        | .ok _ => (.ok ("Deleted card: " ++ cid), sess, calls ++ [.deleteCard cid])

/-- Embeds the `trello_write_tool` `resource == "checklist"` block (src/main.py:2138-2186). -/
def writeToolChecklist (gw : Gateway) (sess : Session)
    (act idOrName parentResource parentIdOrName : String)
    (fields : Fields) (switchContext : Bool) : CmdOut :=
  if act = "create" then
    let name := pyStrip (fields.name.getD "")
    if name = "" then (.error "checklist.create requires fields.name.", sess, [])
    else
      let cardRef :=
        if normalizeResource parentResource = "card" then parentIdOrName
        else fields.card_id.getD ""
      match resolveCardWithOptionalParent gw sess cardRef "" "" with
      | (.error e, calls) => (.error (renderReqErr e), sess, calls)
      | (.ok (cid, _, err), calls) =>
        if err.isSome ∨ cid = "" then
          (.error (err.getD "Card not found for checklist.create."), sess, calls)
        else
          match gw.createChecklist cid name with
          | .error e => (.error (renderReqErr e), sess, calls ++ [.createChecklist cid name])
          | .ok checklist =>
            if switchContext then
              match gw.getCard cid with
              | .error e =>
                (.error (renderReqErr e), sess, calls ++ [.createChecklist cid name, .getCard cid])
              | .ok card =>
                (.ok ("Created checklist: " ++ checklist.name ++ " (" ++ checklist.id ++ ")"),
                  syncContextFromCard sess card, calls ++ [.createChecklist cid name, .getCard cid])
            else
              (.ok ("Created checklist: " ++ checklist.name ++ " (" ++ checklist.id ++ ")"),
                sess, calls ++ [.createChecklist cid name])
  else
    match resolveChecklistRef gw sess idOrName "" parentResource parentIdOrName with
    | (.error e, calls) => (.error (renderReqErr e), sess, calls)
    | (.ok (ckId, _, _, err), calls) =>
      if err.isSome ∨ ckId = "" then (.error (err.getD "Checklist not found."), sess, calls)
      else if act = "update" then
        let name := pyStrip (fields.name.getD "")
        if name = "" then (.error "checklist.update currently supports fields.name.", sess, calls)
        else
          match gw.updateChecklist ckId [("name", name)] with
          | .error e =>
            (.error (renderReqErr e), sess, calls ++ [.updateChecklist ckId [("name", name)]])
          | .ok checklist =>
            (.ok ("Updated checklist: " ++ checklist.name ++ " (" ++ checklist.id ++ ")"), sess,
              calls ++ [.updateChecklist ckId [("name", name)]])
      else
        match gw.deleteChecklist ckId with
        | .error e => (.error (renderReqErr e), sess, calls ++ [.deleteChecklist ckId])
        | .ok _ => (.ok ("Deleted checklist: " ++ ckId), sess, calls ++ [.deleteChecklist ckId])

/-- Embeds the `trello_write_tool` `resource == "checklist_item"` block
(src/main.py:2188-2262). -/
def writeToolChecklistItem (gw : Gateway) (sess : Session)
    (act idOrName parentResource parentIdOrName : String)
    (fields : Fields) : CmdOut :=
  let checklistRef :=
    if normalizeResource parentResource = "checklist" then parentIdOrName
    else fields.checklist_id.getD ""
  let cardRef := fields.card_id.getD ""
  if act = "create" then
    let name := pyStrip (fields.name.getD "")
    if name = "" then (.error "checklist_item.create requires fields.name.", sess, [])
    else
      match resolveChecklistRef gw sess checklistRef cardRef "" "" with
      | (.error e, calls) => (.error (renderReqErr e), sess, calls)
      | (.ok (ckId, _, _, err), calls) =>
        if err.isSome ∨ ckId = "" then
          (.error (err.getD "Checklist not found for checklist_item.create."), sess, calls)
        else
          match gw.addCheckItem ckId name with
          | .error e => (.error (renderReqErr e), sess, calls ++ [.addCheckItem ckId name])
          | .ok item =>
            (.ok ("Created checklist item: " ++ item.name ++ " (" ++ item.id ++ ")"), sess,
              calls ++ [.addCheckItem ckId name])
  else
    match resolveChecklistItemRef gw sess idOrName checklistRef cardRef parentResource parentIdOrName with
    | (.error e, calls) => (.error (renderReqErr e), sess, calls)
    | (.ok (itemId, ckId, cardId, _, err), calls) =>
      if err.isSome ∨ itemId = "" then
        (.error (err.getD "Checklist item not found."), sess, calls)
      else if act = "update" then
        let params :=
          (if fields.name.isSome then [("name", fields.name.getD "")] else [])
          ++ (if fields.checked.isSome then
                [("state", if boolField fields.checked then "complete" else "incomplete")] else [])
        if params = [] then
          (.error "checklist_item.update requires fields.name or fields.checked.", sess, calls)
        else if cardId = "" then
          (.error "checklist_item.update requires card context (fields.card_id or resolvable checklist idCard).", sess, calls)
        else
          match gw.updateCheckItem cardId itemId params with
          | .error e =>
            (.error (renderReqErr e), sess, calls ++ [.updateCheckItem cardId itemId params])
          | .ok _ =>
            (.ok ("Updated checklist item: " ++ itemId), sess,
              calls ++ [.updateCheckItem cardId itemId params])
      else
        match gw.deleteCheckItem ckId itemId with
        | .error e => (.error (renderReqErr e), sess, calls ++ [.deleteCheckItem ckId itemId])
        | .ok _ =>
          (.ok ("Deleted checklist item: " ++ itemId), sess, calls ++ [.deleteCheckItem ckId itemId])

/-- The `trello_write` LLM tool (src/main.py:1933-2270): credential check,
resource/action normalization, the action whitelist, the
`delete`-requires-`confirm` gate, then dispatch to the resource blocks. -/
def writeTool (creds : Creds) (gw : Gateway) (sess : Session)
    (resource action idOrName parentResource parentIdOrName : String)
    (fields : Fields) (confirm switchContext : Bool) : CmdOut :=
  if creds.apiKey = "" ∨ creds.token = "" then
    (.error "Trello credentials are not configured.", sess, [])
  else
    let res := normalizeResource resource
    let act := normalizeMode action
    if ¬(act = "create" ∨ act = "update" ∨ act = "delete") then
      (.error "Unsupported action. Use create, update, or delete.", sess, [])
    else if act = "delete" ∧ confirm = false then
      (.error "Delete operations require confirm=true.", sess, [])
    else if res = "board" then
      writeToolBoard gw sess act idOrName fields switchContext
    else if res = "list" then
      writeToolList gw sess act idOrName parentResource parentIdOrName fields switchContext
    else if res = "card" then
      writeToolCard gw sess act idOrName parentResource parentIdOrName fields switchContext
    else if res = "checklist" then
      writeToolChecklist gw sess act idOrName parentResource parentIdOrName fields switchContext
    else if res = "checklist_item" then
      writeToolChecklistItem gw sess act idOrName parentResource parentIdOrName fields
    else
      (.error "Unsupported resource. Use board, list, card, checklist, or checklist_item.", sess, [])

/-! ## Helper lemmas -/

theorem isHexChar_not_ws {c : Char} (h : isHexChar c = true) : isPyWhitespace c = false := by
  unfold isHexChar at h
  unfold isPyWhitespace
  simp only [Bool.or_eq_true, Bool.and_eq_true, decide_eq_true_eq] at h
  simp only [Bool.or_eq_false_iff, decide_eq_false_iff_not]
  omega

theorem dropWhile_eq_self_of {p : Char → Bool} :
    ∀ {l : List Char}, (∀ c ∈ l, p c = false) → l.dropWhile p = l
  | [], _ => rfl
  | c :: t, h => by
    have hc : p c = false := h c (List.mem_cons_self c t)
    simp [List.dropWhile, hc]

theorem stripList_eq_self_of {l : List Char} (h : ∀ c ∈ l, isPyWhitespace c = false) :
    stripList l = l := by
  unfold stripList
  rw [dropWhile_eq_self_of h]
  rw [dropWhile_eq_self_of (by intro c hc; exact h c (List.mem_reverse.mp hc))]
  exact List.reverse_reverse l

theorem pyStrip_of_id {s : String} (h : looksLikeTrelloId s = true) : pyStrip s = s := by
  unfold looksLikeTrelloId at h
  have hall : s.data.all isHexChar = true := (Bool.and_eq_true_iff.mp h).2
  have hws : ∀ c ∈ s.data, isPyWhitespace c = false := by
    intro c hc
    exact isHexChar_not_ws (List.all_eq_true.mp hall c hc)
  unfold pyStrip
  rw [stripList_eq_self_of hws]

theorem ne_empty_of_id {s : String} (h : looksLikeTrelloId s = true) : s ≠ "" := by
  unfold looksLikeTrelloId at h
  have hlen : (s.length = 24) := by
    have := (Bool.and_eq_true_iff.mp h).1
    exact of_decide_eq_true this
  intro he
  rw [he] at hlen
  simp [String.length] at hlen

theorem renderCandidates_length_le {α : Type} (getId getName : α → String) (l : List α) :
    (renderCandidates getId getName l).length ≤ 5 := by
  unfold renderCandidates
  simp [List.length_map, List.length_take]

/-! ## Concrete fixtures for witnesses and counterexamples -/

/-- A Gateway whose every call succeeds with an empty/default value. -/
def gwEmpty : Gateway where
  getBoards := .ok []
  getLists := fun _ => .ok []
  getListCards := fun _ _ => .ok []
  searchCards := fun _ _ _ => .ok []
  getBoard := fun _ => .ok {}
  getList := fun _ => .ok {}
  getCard := fun _ => .ok {}
  getCardChecklists := fun _ => .ok []
  getChecklist := fun _ => .ok {}
  createBoard := fun _ _ => .ok {}
  updateBoard := fun _ _ => .ok {}
  archiveBoard := fun _ => .ok {}
  createList := fun _ _ => .ok {}
  renameList := fun _ _ => .ok {}
  archiveList := fun _ => .ok {}
  createCard := fun _ _ _ => .ok {}
  updateCard := fun _ _ => .ok {}
  deleteCard := fun _ => .ok ()
  createChecklist := fun _ _ => .ok {}
  updateChecklist := fun _ _ => .ok {}
  deleteChecklist := fun _ => .ok ()
  addCheckItem := fun _ _ => .ok {}
  updateCheckItem := fun _ _ _ => .ok {}
  deleteCheckItem := fun _ _ => .ok ()

/-- A card named "alpha" living on board `b1`, list `l2`. -/
def cardAlpha : Card :=
  { id := "cccccccccccccccccccccccc", name := "alpha", idBoard := "b1", idList := "l2" }

/-- Gateway for the card-fallback scenario: the session list has no cards,
while the board-wide search finds `cardAlpha`. -/
def gwFallback : Gateway :=
  { gwEmpty with
    getListCards := fun _ _ => .ok [],
    searchCards := fun _ _ _ => .ok [cardAlpha] }

/-- Session with both a board and a list scope. -/
def sessScoped : Session := { board_id := "b1", list_id := "l1" }

/-- A single open board named "Ops". -/
def boardOps : BoardL := { id := "bbbbbbbbbbbbbbbbbbbbbbbb", name := "Ops" }

/-- Gateway exposing only `boardOps`. -/
def gwBoards : Gateway := { gwEmpty with getBoards := .ok [boardOps] }

/-- Open and closed boards for the closed-filtering scenario. -/
def boardOpen : BoardL := { id := "1", name := "Open" }

/-- Closed board of the closed-filtering scenario. -/
def boardClosed : BoardL := { id := "2", name := "Closed", closed := true }

/-- A closed card, to exercise the unfiltered get-by-id path. -/
def cardClosed : Card := { id := "9", name := "Archived card", closed := true }

/-- Transport fixture: one open and one closed board; a closed card behind
get-by-id. -/
def tSample : Transport where
  membersMeBoards := .ok [boardOpen, boardClosed]
  boardLists := fun _ => .ok []
  listCardsRaw := fun _ _ => .ok []
  searchCardsRaw := fun _ _ _ => .ok []
  boardById := fun _ => .ok { id := "3", name := "B", closed := true }
  cardById := fun _ => .ok cardClosed

/-- Checklist fixture owned by card `aaaaaaaaaaaaaaaaaaaaaaaa`, holding one
item whose id differs from the probed ones. -/
def checklistK : Checklist :=
  { id := "dddddddddddddddddddddddd", name := "K",
    idCard := "aaaaaaaaaaaaaaaaaaaaaaaa",
    checkItems := [{ id := "eeeeeeeeeeeeeeeeeeeeeeee", name := "step" }] }

/-- Gateway for the checklist fixtures: the owning card lists `checklistK`,
and fetching any checklist id returns `checklistK`. -/
def gwChecklists : Gateway :=
  { gwEmpty with
    getCardChecklists := fun _ => .ok [checklistK],
    getChecklist := fun _ => .ok checklistK }

/-! ## Shared resolver lemmas -/

theorem resolveBoardRef_of_id (gw : Gateway) (sess : Session) {s : String}
    (h : looksLikeTrelloId s = true) :
    resolveBoardRef gw sess s = (.ok (s, none, none), []) := by
  unfold resolveBoardRef
  simp [pyStrip_of_id h, ne_empty_of_id h, h]

theorem resolveListRef_of_id (gw : Gateway) (sess : Session) {s : String}
    (h : looksLikeTrelloId s = true) :
    resolveListRef gw sess s = (.ok (s, none, none), []) := by
  unfold resolveListRef
  simp [pyStrip_of_id h, ne_empty_of_id h, h]

theorem resolveCardRef_of_id (gw : Gateway) (sess : Session) {s : String}
    (h : looksLikeTrelloId s = true) :
    resolveCardRef gw sess s = (.ok (s, none, none), []) := by
  unfold resolveCardRef
  simp [pyStrip_of_id h, ne_empty_of_id h, h]

theorem resolveCardWithOptionalParent_of_id (gw : Gateway) (sess : Session) {s : String}
    (h : looksLikeTrelloId s = true) :
    resolveCardWithOptionalParent gw sess s "" "" = (.ok (s, none, none), []) := by
  unfold resolveCardWithOptionalParent
  simp [show pyStrip "" = "" from rfl, resolveCardRef_of_id gw sess h]

theorem resolveChecklistRef_of_id_noctx (gw : Gateway) (sess : Session) {s : String}
    (h : looksLikeTrelloId s = true) :
    resolveChecklistRef gw sess s "" "" "" = (.ok (s, "", none, none), []) := by
  unfold resolveChecklistRef
  simp [pyStrip_of_id h, ne_empty_of_id h, h]

/-! ## Claim theorems -/

/-- C2: an ID-shaped reference (24 hex characters, either case) given to the
board, list or card resolver is returned unchanged with no resolved object
and no error, and no Gateway call is issued; a reference that is non-empty
after trimming (the resolvers' notion of a provided reference) and not
ID-shaped is instead looked up by name through the Gateway listing. -/
theorem idShapedRefTrusted (gw : Gateway) (sess : Session) (s : String)
    (h : looksLikeTrelloId s = true) :
    resolveBoardRef gw sess s = (.ok (s, none, none), [])
    ∧ resolveListRef gw sess s = (.ok (s, none, none), [])
    ∧ resolveCardRef gw sess s = (.ok (s, none, none), [])
    ∧ (∀ t : String, pyStrip t ≠ "" → looksLikeTrelloId (pyStrip t) = false →
        (resolveBoardRef gw sess t).2 = [GCall.getBoards]) := by
  refine ⟨resolveBoardRef_of_id gw sess h, resolveListRef_of_id gw sess h,
    resolveCardRef_of_id gw sess h, ?_⟩
  intro t ht hid
  unfold resolveBoardRef
  cases hgb : gw.getBoards with
  | error e => simp [ht, hid, hgb]
  | ok bs =>
    cases hm : matchNamedItem BoardL.id BoardL.name bs (pyStrip t) with
    | error me => simp [ht, hid, hgb, hm]
    | ok item => simp [ht, hid, hgb, hm]

/-- Witness for C2 at a concrete mixed-case 24-hex reference. -/
theorem idShapedRefTrusted_witness :
    looksLikeTrelloId "5AbBe4b7ddc87b2c2c0000aF" = true
    ∧ resolveBoardRef gwEmpty {} "5AbBe4b7ddc87b2c2c0000aF"
        = (.ok ("5AbBe4b7ddc87b2c2c0000aF", none, none), []) :=
  ⟨by decide, (idShapedRefTrusted gwEmpty {} "5AbBe4b7ddc87b2c2c0000aF" (by decide)).1⟩

/-- C3 counterexample: for the empty query and the single item named `""`,
exactly one item's trimmed case-folded name equals the trimmed case-folded
query, yet `_match_named_item` returns the "Empty query." error instead of
that item — the claim's universal over every query fails at the empty
query. -/
theorem exactMatchPriority_cex :
    ([({ id := "x", name := "" } : NamedItem)].filter
        (fun it => pyCasefold (pyStrip it.name) == pyCasefold (pyStrip ""))).length = 1
    ∧ matchNamedItem NamedItem.id NamedItem.name [{ id := "x", name := "" }] ""
        = .error .emptyQuery :=
  ⟨by decide, rfl⟩

/-- C3 amended: for every query that is non-empty after trimming, if exactly
one item's trimmed case-folded name equals the trimmed case-folded query,
`_match_named_item` returns that item with no error — even when other
items' names contain the query as a substring. -/
theorem exactMatchPriority (α : Type) (getId getName : α → String)
    (items : List α) (query : String) (it : α)
    (hq : pyStrip query ≠ "")
    (hx : items.filter
        (fun x => pyCasefold (pyStrip (getName x)) == pyCasefold (pyStrip query)) = [it]) :
    matchNamedItem getId getName items query = .ok it := by
  unfold matchNamedItem
  simp only []
  rw [if_neg hq, hx]

/-- Witness for C3 amended: the spec's scenario — query `"design"` against
`Design` and `Design Review` returns the exact match `Design`. -/
theorem exactMatchPriority_witness :
    pyStrip "design" ≠ ""
    ∧ matchNamedItem NamedItem.id NamedItem.name
        [{ id := "a", name := "Design" }, { id := "b", name := "Design Review" }] "design"
      = .ok { id := "a", name := "Design" } :=
  ⟨by decide,
    exactMatchPriority NamedItem NamedItem.id NamedItem.name
      [{ id := "a", name := "Design" }, { id := "b", name := "Design Review" }]
      "design" { id := "a", name := "Design" } (by decide) rfl⟩

/-- C8 counterexample: two items whose trimmed case-folded names both equal
the trimmed case-folded query (all empty after trimming) do not produce an
ambiguity error: `_match_named_item` returns the "Empty query." error — the
claim's universal over every query fails at whitespace-only queries. -/
theorem ambiguityBound_cex :
    2 ≤ ([({ id := "a", name := " " } : NamedItem), { id := "b", name := "  " }].filter
        (fun it => pyCasefold (pyStrip it.name) == pyCasefold (pyStrip "  "))).length
    ∧ matchNamedItem NamedItem.id NamedItem.name
        [{ id := "a", name := " " }, { id := "b", name := "  " }] "  "
      = .error .emptyQuery :=
  ⟨by decide, rfl⟩

/-- C8 amended: for every query non-empty after trimming, when two or more
items match exactly under trimming and case-folding, or no item matches
exactly and two or more match by substring, `_match_named_item` fails with
an ambiguity error whose candidate list renders at most five
`name (id)` pairs. -/
theorem ambiguityBound (α : Type) (getId getName : α → String)
    (items : List α) (query : String)
    (hq : pyStrip query ≠ "")
    (h : 2 ≤ (items.filter
          (fun x => pyCasefold (pyStrip (getName x)) == pyCasefold (pyStrip query))).length
      ∨ (items.filter
            (fun x => pyCasefold (pyStrip (getName x)) == pyCasefold (pyStrip query)) = []
          ∧ 2 ≤ (items.filter
              (fun x => pySubstr (pyCasefold (pyStrip query)) (pyCasefold (pyStrip (getName x))))).length)) :
    ∃ l : List α,
      matchNamedItem getId getName items query
        = .error (.ambiguous (pyStrip query) (renderCandidates getId getName l))
      ∧ (renderCandidates getId getName l).length ≤ 5 := by
  unfold matchNamedItem
  simp only []
  rw [if_neg hq]
  rcases hE : items.filter
      (fun x => pyCasefold (pyStrip (getName x)) == pyCasefold (pyStrip query)) with _ | ⟨x, _ | ⟨y, t⟩⟩
  · rw [hE] at h
    rcases h with h2 | ⟨_, h2⟩
    · simp at h2
    · rcases hS : items.filter
          (fun x => pySubstr (pyCasefold (pyStrip query)) (pyCasefold (pyStrip (getName x)))) with _ | ⟨u, _ | ⟨v, w⟩⟩
      · rw [hS] at h2; simp at h2
      · rw [hS] at h2; simp at h2
      · exact ⟨u :: v :: w, rfl, renderCandidates_length_le _ _ _⟩
  · rw [hE] at h
    rcases h with h2 | ⟨he, _⟩
    · simp at h2
    · simp at he
  · exact ⟨x :: y :: t, rfl, renderCandidates_length_le _ _ _⟩

/-- C1 counterexample: with a session list scope (`l1`) and the non-ID card
reference `"alpha"`, the list-scoped lookup returns no cards — a not-found
outcome without ambiguity — yet `_resolve_card_ref` does not fail with that
error: it falls back to the board-wide keyword search, issues the
`searchCards` Gateway call, and succeeds through it. -/
theorem cardListScopeFallback_cex :
    sessScoped.list_id ≠ ""
    ∧ looksLikeTrelloId "alpha" = false
    ∧ gwFallback.getListCards sessScoped.list_id 100 = .ok []
    ∧ matchNamedItem Card.id Card.name [] "alpha" = .error (.notFound "alpha")
    ∧ (resolveCardRef gwFallback sessScoped "alpha").1
        = .ok ("cccccccccccccccccccccccc", some cardAlpha, none)
    ∧ (resolveCardRef gwFallback sessScoped "alpha").2
        = [.getListCards "l1" 100, .searchCards "b1" "alpha" 20] :=
  ⟨by decide, by decide, rfl, rfl, rfl, rfl⟩

/-- C1 amended: when a list scope exists in the session and the list-scoped
card lookup fails with any Name-Matcher error (not-found included),
`_resolve_card_ref` always falls through to the board path: the board-wide
keyword search when a session board exists, otherwise the missing-context
error — the list-scoped error itself is never returned. -/
theorem cardListMissFallsThrough (gw : Gateway) (sess : Session) (cardRef : String)
    (cards : List Card) (me : MatchErr)
    (href : pyStrip cardRef ≠ "")
    (hid : looksLikeTrelloId (pyStrip cardRef) = false)
    (hlist : sess.list_id ≠ "")
    (hcards : gw.getListCards sess.list_id 100 = .ok cards)
    (hmiss : matchNamedItem Card.id Card.name cards (pyStrip cardRef) = .error me) :
    resolveCardRef gw sess cardRef
      = cardBoardSearch gw sess (pyStrip cardRef) [.getListCards sess.list_id 100] := by
  unfold resolveCardRef
  simp [href, hid, hlist, hcards, hmiss]

/-- Witness for C1 amended at the fallback fixture. -/
theorem cardListMissFallsThrough_witness :
    pyStrip "alpha" ≠ ""
    ∧ resolveCardRef gwFallback sessScoped "alpha"
        = cardBoardSearch gwFallback sessScoped (pyStrip "alpha")
            [.getListCards sessScoped.list_id 100] :=
  ⟨by decide,
    cardListMissFallsThrough gwFallback sessScoped "alpha" [] (.notFound "alpha")
      (by decide) (by decide) (by decide) rfl rfl⟩

/-- Witness for C8 amended: seven identically named items yield an
ambiguity error listing at most five candidates. -/
theorem ambiguityBound_witness :
    pyStrip "t" ≠ ""
    ∧ ∃ l : List NamedItem,
        matchNamedItem NamedItem.id NamedItem.name
          [⟨"1", "t"⟩, ⟨"2", "t"⟩, ⟨"3", "t"⟩, ⟨"4", "t"⟩, ⟨"5", "t"⟩, ⟨"6", "t"⟩, ⟨"7", "t"⟩] "t"
          = .error (.ambiguous (pyStrip "t") (renderCandidates NamedItem.id NamedItem.name l))
        ∧ (renderCandidates NamedItem.id NamedItem.name l).length ≤ 5 :=
  ⟨by decide,
    ambiguityBound NamedItem NamedItem.id NamedItem.name
      [⟨"1", "t"⟩, ⟨"2", "t"⟩, ⟨"3", "t"⟩, ⟨"4", "t"⟩, ⟨"5", "t"⟩, ⟨"6", "t"⟩, ⟨"7", "t"⟩]
      "t" (by decide) (Or.inl (by decide))⟩

/-- C6: failure taxonomy of `TrelloClient._request`: HTTP 401/403 raise the
auth error; any other status `>= 400` raises an API error carrying the
status code and the first 300 characters of the body; a transport failure
or timeout raises an API error with the "Network error" indicator; a
response with `Content-Length` 0 yields the empty object; a body that
cannot be parsed as JSON yields `{"text": body}` rather than failing. -/
theorem requestTaxonomy (status : Nat) (clen : Option Nat) (body msg : String)
    (parsed : Option JsonVal) :
    (status = 401 ∨ status = 403 →
      request (.response status clen body parsed) = .error (.authError "Authentication failed."))
    ∧ (¬(status = 401 ∨ status = 403) → 400 ≤ status →
      request (.response status clen body parsed)
        = .error (.apiError ("HTTP " ++ toString status ++ ": " ++ body.take 300)))
    ∧ request (.transportError msg) = .error (.apiError ("Network error: " ++ msg))
    ∧ (¬(status = 401 ∨ status = 403) → status < 400 → clen = some 0 →
      request (.response status clen body parsed) = .ok (.obj []))
    ∧ (¬(status = 401 ∨ status = 403) → status < 400 → clen ≠ some 0 → parsed = none →
      request (.response status clen body parsed) = .ok (.obj [("text", .str body)])) := by
  refine ⟨?_, ?_, rfl, ?_, ?_⟩
  · intro h
    unfold request
    simp [h]
  · intro h1 h2
    unfold request
    simp [h1, h2]
  · intro h1 h2 h3
    have h2' : ¬ 400 ≤ status := by omega
    unfold request
    simp [h1, h2', h3]
  · intro h1 h2 h3 h4
    have h2' : ¬ 400 ≤ status := by omega
    unfold request
    simp [h1, h2', h3, h4]

/-- Witness for C6 at concrete responses for each taxonomy case. -/
theorem requestTaxonomy_witness :
    request (.response 401 none "" none) = .error (.authError "Authentication failed.")
    ∧ request (.response 500 none "boom-body" none)
        = .error (.apiError ("HTTP " ++ toString 500 ++ ": " ++ "boom-body".take 300))
    ∧ request (.transportError "timeout") = .error (.apiError ("Network error: " ++ "timeout"))
    ∧ request (.response 200 (some 0) "" none) = .ok (.obj [])
    ∧ request (.response 200 (some 6) "<html>" none) = .ok (.obj [("text", .str "<html>")]) :=
  ⟨(requestTaxonomy 401 none "" "x" none).1 (Or.inl rfl),
    (requestTaxonomy 500 none "boom-body" "x" none).2.1 (by omega) (by omega),
    (requestTaxonomy 0 none "" "timeout" none).2.2.1,
    (requestTaxonomy 200 (some 0) "" "x" none).2.2.2.1 (by omega) (by omega) rfl,
    (requestTaxonomy 200 (some 6) "<html>" "x" none).2.2.2.2 (by omega) (by omega)
      (by simp) rfl⟩

/-- C7: the list-returning client operations (boards, lists of a board,
cards of a list, keyword card search) never return an item whose `closed`
field is true; the get-by-id operations return the fetched object
unfiltered, even when it is closed. -/
theorem closedFiltering (t : Transport) (boardId listId keyword cardId : String) (lim : Nat) :
    (∀ bs, clientGetBoards t = .ok bs → ∀ b ∈ bs, b.closed = false)
    ∧ (∀ ls, clientGetLists t boardId = .ok ls → ∀ l ∈ ls, l.closed = false)
    ∧ (∀ cs, clientGetListCards t listId lim = .ok cs → ∀ c ∈ cs, c.closed = false)
    ∧ (∀ cs, clientSearchCards t boardId keyword lim = .ok cs → ∀ c ∈ cs, c.closed = false)
    ∧ (∀ b, t.boardById boardId = .ok b → clientGetBoard t boardId = .ok b)
    ∧ (∀ c, t.cardById cardId = .ok c → clientGetCard t cardId = .ok c) := by
  refine ⟨?_, ?_, ?_, ?_, fun b hb => hb, fun c hc => hc⟩
  · intro bs hbs b hb
    unfold clientGetBoards at hbs
    cases hmb : t.membersMeBoards with
    | error e => rw [hmb] at hbs; cases hbs
    | ok data =>
      rw [hmb] at hbs
      simp only [Except.ok.injEq] at hbs
      subst hbs
      simpa using (List.mem_filter.mp hb).2
  · intro ls hls l hl
    unfold clientGetLists at hls
    cases hm : t.boardLists boardId with
    | error e => rw [hm] at hls; cases hls
    | ok data =>
      rw [hm] at hls
      simp only [Except.ok.injEq] at hls
      subst hls
      simpa using (List.mem_filter.mp hl).2
  · intro cs hcs c hc
    unfold clientGetListCards at hcs
    cases hm : t.listCardsRaw listId (max 1 (min lim 100)) with
    | error e => rw [hm] at hcs; cases hcs
    | ok data =>
      rw [hm] at hcs
      simp only [Except.ok.injEq] at hcs
      subst hcs
      simpa using (List.mem_filter.mp hc).2
  · intro cs hcs c hc
    unfold clientSearchCards at hcs
    cases hm : t.searchCardsRaw boardId keyword (max 1 (min lim 50)) with
    | error e => rw [hm] at hcs; cases hcs
    | ok data =>
      rw [hm] at hcs
      simp only [Except.ok.injEq] at hcs
      subst hcs
      simpa using (List.mem_filter.mp hc).2

/-- Witness for C7: the spec scenario — of an open and a closed board only
the open one survives listing, and a closed card is still returned
unfiltered by get-by-id. -/
theorem closedFiltering_witness :
    boardOpen.closed = false
    ∧ clientGetBoards tSample = .ok [boardOpen]
    ∧ clientGetCard tSample "9" = .ok cardClosed :=
  ⟨(closedFiltering tSample "b" "l" "kw" "9" 3).1 [boardOpen] rfl boardOpen
      (List.mem_singleton.mpr rfl),
    rfl,
    (closedFiltering tSample "b" "l" "kw" "9" 3).2.2.2.2.2 cardClosed rfl⟩

/-- C9: a `trello_write` invocation with (normalized) action `delete` and
`confirm = false` is rejected with the validation message before any
resolution and before any Gateway call, regardless of resource: the call
trace is empty and the session is unchanged. -/
theorem deleteRequiresConfirm (creds : Creds) (gw : Gateway) (sess : Session)
    (resource action idOrName parentResource parentIdOrName : String)
    (fields : Fields) (switchContext : Bool)
    (hkey : creds.apiKey ≠ "") (htok : creds.token ≠ "")
    (hact : normalizeMode action = "delete") :
    writeTool creds gw sess resource action idOrName parentResource parentIdOrName
        fields false switchContext
      = (.error "Delete operations require confirm=true.", sess, []) := by
  unfold writeTool
  simp [hkey, htok, hact]

/-- Witness for C9: a delete invocation (mixed-case action) without
confirmation is rejected with no Gateway call and no session change. -/
theorem deleteRequiresConfirm_witness :
    writeTool ⟨"k", "t"⟩ gwEmpty {} "card" "Delete" "x" "" "" {} false true
      = (.error "Delete operations require confirm=true.", {}, []) :=
  deleteRequiresConfirm ⟨"k", "t"⟩ gwEmpty {} "card" "Delete" "x" "" "" {} true
    (by decide) (by decide) (by decide)

/-- C4: selecting a board (`use_board`) writes the resolved board id into
the session and clears the session card; selecting a list (`use_list`)
writes the resolved list id and clears the session card; card context
synchronization (`_sync_context_from_card`) writes the fetched card's
`idBoard`/`idList`/`id` into the session with only non-empty fields
overwriting (and never touches `done_list_id`); and the `trello_select`
card branch applies exactly that synchronization to the fetched card. -/
theorem contextSyncOnSelection (creds : Creds) (gw : Gateway) (sess : Session)
    (hkey : creds.apiKey ≠ "") (htok : creds.token ≠ "") :
    (∀ ref rid b calls, ref ≠ "" → rid ≠ "" →
        resolveBoardRef gw sess ref = (.ok (rid, b, none), calls) →
        (useBoard creds gw sess ref).2.1 = { sess with board_id := rid, card_id := "" })
    ∧ (∀ ref rid l calls, ref ≠ "" → rid ≠ "" →
        resolveListRef gw sess ref = (.ok (rid, l, none), calls) →
        (useList creds gw sess ref).2.1 = { sess with list_id := rid, card_id := "" })
    ∧ (∀ card : Card,
        (syncContextFromCard sess card).board_id
            = (if card.idBoard = "" then sess.board_id else card.idBoard)
        ∧ (syncContextFromCard sess card).list_id
            = (if card.idList = "" then sess.list_id else card.idList)
        ∧ (syncContextFromCard sess card).card_id
            = (if card.id = "" then sess.card_id else card.id)
        ∧ (syncContextFromCard sess card).done_list_id = sess.done_list_id)
    ∧ (∀ idOrName pRes pRef cid prev calls card, cid ≠ "" →
        resolveCardWithOptionalParent gw sess idOrName pRes pRef = (.ok (cid, prev, none), calls) →
        gw.getCard cid = .ok card →
        (selectTool creds gw sess "card" idOrName pRes pRef).2.1
          = syncContextFromCard sess card) := by
  refine ⟨?_, ?_, ?_, ?_⟩
  · intro ref rid b calls href hrid hres
    unfold useBoard
    simp [href, hkey, htok, hres, hrid]
  · intro ref rid l calls href hrid hres
    unfold useList
    simp [href, hkey, htok, hres, hrid]
  · intro card
    unfold syncContextFromCard
    by_cases hb : card.idBoard = "" <;> by_cases hl : card.idList = "" <;>
      by_cases hc : card.id = "" <;> simp [hb, hl, hc]
  · intro idOrName pRes pRef cid prev calls card hcid hres hcard
    unfold selectTool
    have e1 : normalizeResource "card" = "card" := rfl
    have e2 : ("card" : String) ≠ "board" := by decide
    have e3 : ("card" : String) ≠ "list" := by decide
    simp [hkey, htok, e1, e2, e3, hres, hcid, hcard]

/-- Witness for C4: selecting board "Ops" via `use_board` sets the session
board and clears the session card. -/
theorem contextSyncOnSelection_witness :
    (useBoard ⟨"k", "t"⟩ gwBoards {} "Ops").2.1
      = { ({} : Session) with board_id := "bbbbbbbbbbbbbbbbbbbbbbbb", card_id := "" } :=
  (contextSyncOnSelection ⟨"k", "t"⟩ gwBoards {} (by decide) (by decide)).1
    "Ops" "bbbbbbbbbbbbbbbbbbbbbbbb" (some boardOps) [.getBoards]
    (by decide) (by decide) rfl

/-- C5: for the `trello_select` tool (every resource branch) and the `card`
command, any error outcome — missing credentials, failed resolution, a
raised Gateway error at any point of the chain, or an unsupported
resource — leaves every session field unchanged: session writes happen only
on the success path, after the corresponding remote calls succeeded. -/
theorem sessionUnchangedOnError (creds : Creds) (gw : Gateway) (sess : Session) :
    (∀ resource idOrName parentResource parentIdOrName msg,
        (selectTool creds gw sess resource idOrName parentResource parentIdOrName).1 = .error msg →
        (selectTool creds gw sess resource idOrName parentResource parentIdOrName).2.1 = sess)
    ∧ (∀ cardArg msg,
        (cardCmd creds gw sess cardArg).1 = .error msg →
        (cardCmd creds gw sess cardArg).2.1 = sess) := by
  constructor
  · intro resource idOrName parentResource parentIdOrName msg
    unfold selectTool
    dsimp only []
    repeat' split
    all_goals (intro h; first | rfl | simp at h)
  · intro cardArg msg
    unfold cardCmd
    dsimp only []
    repeat' split
    all_goals (intro h; first | rfl | simp at h)

/-- Witness for C5: a failed board selection (no board named "Ops" exists)
reports the resolver error and leaves the empty session empty. -/
theorem sessionUnchangedOnError_witness :
    (selectTool ⟨"k", "t"⟩ gwEmpty {} "board" "Ops" "" "").1
        = .error "No item matched name: Ops"
    ∧ (selectTool ⟨"k", "t"⟩ gwEmpty {} "board" "Ops" "" "").2.1 = {} :=
  ⟨rfl,
    (sessionUnchangedOnError ⟨"k", "t"⟩ gwEmpty {}).1 "board" "Ops" "" ""
      "No item matched name: Ops" rfl⟩

/-- C10: an ID-shaped checklist reference is returned without error even
when the owning card's checklist listing does not contain it (the resolved
object is then `none`); an ID-shaped check-item reference absent from the
resolved checklist's item sequence is likewise returned without error with
object `none` — ID-shaped child references are trusted without membership
validation. -/
theorem idShapedChildRefsTrusted (gw : Gateway) (sess : Session)
    (cardId ckRef itemRef : String) (cls : List Checklist) (ck : Checklist)
    (hcard : looksLikeTrelloId cardId = true)
    (hck : looksLikeTrelloId ckRef = true)
    (hitem : looksLikeTrelloId itemRef = true)
    (hlist : gw.getCardChecklists cardId = .ok cls)
    (hmiss : ∀ cl ∈ cls, cl.id ≠ ckRef)
    (hfetch : gw.getChecklist ckRef = .ok ck)
    (hmiss2 : ∀ it ∈ ck.checkItems, it.id ≠ itemRef) :
    resolveChecklistRef gw sess ckRef cardId "" ""
      = (.ok (ckRef, cardId, none, none), [.getCardChecklists cardId])
    ∧ resolveChecklistItemRef gw sess itemRef ckRef "" "" ""
      = (.ok (itemRef, ckRef, ck.idCard, none, none), [.getChecklist ckRef]) := by
  have hfind : cls.find? (fun item => item.id == ckRef) = none := by
    apply List.find?_eq_none.mpr
    intro cl hcl
    simpa using hmiss cl hcl
  have hfind2 : ck.checkItems.find? (fun item => item.id == itemRef) = none := by
    apply List.find?_eq_none.mpr
    intro it hit
    simpa using hmiss2 it hit
  constructor
  · unfold resolveChecklistRef
    simp [pyStrip_of_id hck, ne_empty_of_id hck, hck, ne_empty_of_id hcard,
      resolveCardWithOptionalParent_of_id gw sess hcard, hlist, hfind]
  · unfold resolveChecklistItemRef
    simp [pyStrip_of_id hitem, ne_empty_of_id hitem, hitem, ne_empty_of_id hck,
      resolveChecklistRef_of_id_noctx gw sess hck, hfetch, hfind2]

/-- Witness for C10: probing ID-shaped checklist/check-item references that
do not occur in the listings succeeds with object `none`. -/
theorem idShapedChildRefsTrusted_witness :
    resolveChecklistRef gwChecklists {} "ffffffffffffffffffffffff" "aaaaaaaaaaaaaaaaaaaaaaaa" "" ""
      = (.ok ("ffffffffffffffffffffffff", "aaaaaaaaaaaaaaaaaaaaaaaa", none, none),
          [.getCardChecklists "aaaaaaaaaaaaaaaaaaaaaaaa"])
    ∧ resolveChecklistItemRef gwChecklists {} "abcdefabcdefabcdefabcdef" "ffffffffffffffffffffffff" "" "" ""
      = (.ok ("abcdefabcdefabcdefabcdef", "ffffffffffffffffffffffff", checklistK.idCard, none, none),
          [.getChecklist "ffffffffffffffffffffffff"]) :=
  idShapedChildRefsTrusted gwChecklists {} "aaaaaaaaaaaaaaaaaaaaaaaa" "ffffffffffffffffffffffff"
    "abcdefabcdefabcdefabcdef" [checklistK] checklistK
    (by decide) (by decide) (by decide) rfl (by decide) rfl (by decide)

end Trello
